import Mathlib

/-!
Verification of the ParagonCrisis room real-time coordination core.

Shallow embedding of the Realtime Gateway (`src/server/realtime/socket-server.ts`),
the per-room crisis Scheduler (`src/server/scheduler/crisis-scheduler.ts`) and the
administrative room-closure action (admin page server action).

Modelling conventions:
* Prisma rows are records in lists inside a `ServerState`; database ids are
  natural numbers drawn from a `nextId` counter (cuids in the source).
* Dates are natural-number instants passed in as `now` parameters.
* `socket.data` is a `SocketData` record of optional fields, `none` standing for
  the JavaScript `undefined` of a connection that has not completed a join.
* Randomness (scheduler severity index) is an explicit parameter.
* Everything a handler emits over the wire is returned as a list of `Emission`
  values: `errorToSocket` models `socket.emit("system:error", ...)` (originator
  only), the other constructors model `server.to(roomCode).emit(...)` broadcasts.
-/

namespace ParagonCrisis

inductive MessageType where
  | CHAT
  | EVENT
  | SYSTEM
deriving DecidableEq, Repr

inductive EventSource where
  | MANUAL
  | SCHEDULER
deriving DecidableEq, Repr

/-- The keys of the generated `CrisisSeverity` enum object. -/
def severityKeys : List String := ["LOW", "MODERATE", "HIGH", "CRITICAL"]

/-- ASCII uppercase of one character. -/
def upChar (c : Char) : Char :=
  if 97 ≤ c.toNat ∧ c.toNat ≤ 122 then Char.ofNat (c.toNat - 32) else c

/-- JavaScript `String.prototype.toUpperCase()`; every room code and severity
this system handles is ASCII, where this is the exact behaviour. -/
def jsToUpper (s : String) : String := ⟨s.data.map upChar⟩

structure Room where
  id : Nat
  code : String
  title : Option String
  isActive : Bool
deriving DecidableEq, Repr

structure Participant where
  id : Nat
  roomId : Nat
  displayName : String
  role : String
  isConnected : Bool
  joinedAt : Nat
  leftAt : Option Nat
deriving DecidableEq, Repr

structure Message where
  id : Nat
  roomId : Nat
  authorName : Option String
  msgType : MessageType
  content : String
deriving DecidableEq, Repr

structure CrisisEvent where
  id : Nat
  roomId : Nat
  title : String
  description : String
  severity : String
  source : EventSource
  triggeredAt : Nat
  ackAt : Option Nat
deriving DecidableEq, Repr

/-- `socket.data` of one connection; `none` is JavaScript `undefined`. -/
structure SocketData where
  roomCode : Option String := none
  roomId : Option Nat := none
  participantId : Option Nat := none
  displayName : Option String := none
  isAdmin : Option Bool := none
deriving DecidableEq, Repr

/-- Wire output of a handler invocation. -/
inductive Emission where
  | errorToSocket (sockId : Nat) (message : String)
  | announcement (roomCode : String) (message : String)
  | chatBroadcast (roomCode : String) (messageId : Nat)
  | eventCreated (roomCode : String) (eventId : Nat)
  | participantUpdate (roomCode : String)
deriving DecidableEq, Repr

/-- Durable store plus the two process-local registries
(`roomConnections` and the scheduler timer map `activeSchedulers`). -/
structure ServerState where
  rooms : List Room := []
  participants : List Participant := []
  messages : List Message := []
  crisisEvents : List CrisisEvent := []
  roomConnections : List (String × List Nat) := []
  activeSchedulers : List String := []
  nextId : Nat := 0
deriving DecidableEq, Repr

/-! ### Registry and scheduler-map primitives -/

def lookupConns (m : List (String × List Nat)) (c : String) : Option (List Nat) :=
  (m.find? (fun e => e.1 == c)).map (fun e => e.2)

/-- `Map.set`: replace the value under an existing key, else append the key.
Keys are unique in a JavaScript `Map`, which this preserves. -/
def setConns : List (String × List Nat) → String → List Nat → List (String × List Nat)
  | [], c, l => [(c, l)]
  | e :: t, c, l => if e.1 == c then (c, l) :: t else e :: setConns t c l

def delConns (m : List (String × List Nat)) (c : String) : List (String × List Nat) :=
  m.filter (fun e => e.1 != c)

/-- `Set.add` on a duplicate-free list. -/
def addToSet (l : List Nat) (x : Nat) : List Nat :=
  if l.contains x then l else l ++ [x]

/-- `startRoomScheduler`: idempotent timer creation keyed by room code. -/
def startRoomScheduler (scheds : List String) (roomCode : String) : List String :=
  if scheds.contains roomCode then scheds else scheds ++ [roomCode]

/-- `stopRoomScheduler`: cancels and removes the timer for the code. -/
def stopRoomScheduler (scheds : List String) (roomCode : String) : List String :=
  scheds.filter (fun c => c != roomCode)

/-! ### Store queries -/

/-- `prisma.room.findUnique({ where: { code } })`. -/
def findRoomByCode (rooms : List Room) (code : String) : Option Room :=
  rooms.find? (fun r => r.code == code)

/-- `prisma.room.findUnique({ where: { id } })` style lookup by id. -/
def findRoomById (rooms : List Room) (rid : Nat) : Option Room :=
  rooms.find? (fun r => r.id == rid)

/-- The `where` clause of the participant `findFirst` in `handleJoin`. -/
def pairPred (rid : Nat) (name : String) (p : Participant) : Bool :=
  p.roomId == rid && p.displayName == name

/-- `prisma.participant.findFirst({ where: { roomId, displayName } })`. -/
def findParticipant (ps : List Participant) (rid : Nat) (name : String) :
    Option Participant :=
  ps.find? (pairPred rid name)

/-- Number of Participant rows for one (room, displayName) pair. -/
def countPair (s : ServerState) (rid : Nat) (name : String) : Nat :=
  (s.participants.filter (pairPred rid name)).length

/-! ### Gateway handlers -/

/-- The body of `handleJoin` once the `Room` row is in hand: participant upsert,
socket data assignment, connection registry insertion, scheduler start for
admins, then the two room broadcasts. -/
def joinRoomPhase (s : ServerState) (sockId : Nat) (d : SocketData) (room : Room)
    (code displayName : String) (isAdmin : Bool) (now : Nat) :
    ServerState × SocketData × List Emission :=
  let upserted :=
    match findParticipant s.participants room.id displayName with
    | some existing =>
        let updated : Participant :=
          { existing with
            isConnected := true
            leftAt := none
            role := if isAdmin then "formateur" else existing.role }
        (s.participants.map (fun (p : Participant) => if p.id == existing.id then
            { p with
              isConnected := true
              leftAt := none
              role := if isAdmin then "formateur" else existing.role }
          else p),
         updated, s.nextId)
    | none =>
        let created : Participant :=
          { id := s.nextId
            roomId := room.id
            displayName := displayName
            role := if isAdmin then "formateur" else "participant"
            isConnected := true
            joinedAt := now
            leftAt := none }
        (s.participants ++ [created], created, s.nextId + 1)
  let participant := upserted.2.1
  let d' : SocketData :=
    { d with
      roomCode := some code
      roomId := some room.id
      participantId := some participant.id
      displayName := some participant.displayName
      isAdmin := some isAdmin }
  let conns := addToSet ((lookupConns s.roomConnections code).getD []) sockId
  let registry := setConns s.roomConnections code conns
  let scheds :=
    if isAdmin then startRoomScheduler s.activeSchedulers code else s.activeSchedulers
  ({ s with
      participants := upserted.1
      roomConnections := registry
      activeSchedulers := scheds
      nextId := upserted.2.2 },
   d',
   [Emission.participantUpdate code,
    Emission.announcement code (participant.displayName ++ " a rejoint la salle.")])

/-- `handleJoin(server, socket, roomCode, displayName, isAdmin)`. -/
def handleJoin (s : ServerState) (sockId : Nat) (d : SocketData)
    (roomCode displayName : String) (isAdmin : Bool) (now : Nat) :
    ServerState × SocketData × List Emission :=
  let code := jsToUpper roomCode
  match findRoomByCode s.rooms code with
  | some room => joinRoomPhase s sockId d room code displayName isAdmin now
  | none =>
      if isAdmin then
        let room : Room :=
          { id := s.nextId
            code := code
            title := some ("Salle " ++ code)
            isActive := true }
        joinRoomPhase { s with rooms := s.rooms ++ [room], nextId := s.nextId + 1 }
          sockId d room code displayName isAdmin now
      else
        (s, d,
         [Emission.errorToSocket sockId
            ("La salle " ++ code ++ " n existe pas encore.")])

/-- `handleLeave(server, socket, roomCode)`; also runs on `disconnect`. -/
def handleLeave (s : ServerState) (sockId : Nat) (d : SocketData)
    (roomCode : String) (now : Nat) : ServerState × SocketData × List Emission :=
  let code := jsToUpper roomCode
  let participants :=
    match d.participantId with
    | some pid =>
        s.participants.map (fun p =>
          if p.id == pid then { p with isConnected := false, leftAt := some now } else p)
    | none => s.participants
  let regSched :=
    match lookupConns s.roomConnections code with
    | some l =>
        let l' := l.filter (fun x => x != sockId)
        if l' = [] then
          (delConns s.roomConnections code, stopRoomScheduler s.activeSchedulers code)
        else
          (setConns s.roomConnections code l', s.activeSchedulers)
    | none => (s.roomConnections, s.activeSchedulers)
  let ems1 : List Emission :=
    match d.roomId with
    | some _ => [Emission.participantUpdate code]
    | none => []
  let ems2 : List Emission :=
    match d.displayName with
    | some name => [Emission.announcement code (name ++ " a quitte la salle.")]
    | none => []
  ({ s with
      participants := participants
      roomConnections := regSched.1
      activeSchedulers := regSched.2 },
   d, ems1 ++ ems2)

/-- `handleChatMessage(server, socket, payload)`. -/
def handleChatMessage (s : ServerState) (sockId : Nat) (d : SocketData)
    (content : String) : ServerState × List Emission :=
  match d.roomId, d.roomCode with
  | some roomId, some roomCode =>
      let trimmed := content.trim
      if trimmed = "" then (s, [])
      else
        let msg : Message :=
          { id := s.nextId
            roomId := roomId
            authorName := d.displayName
            msgType := MessageType.CHAT
            content := trimmed }
        ({ s with messages := s.messages ++ [msg], nextId := s.nextId + 1 },
         [Emission.chatBroadcast roomCode msg.id])
  | _, _ => (s, [Emission.errorToSocket sockId "Impossible d identifier la salle courante."])

/-- `handleManualEvent(server, socket, payload)`. -/
def handleManualEvent (s : ServerState) (sockId : Nat) (d : SocketData)
    (title description severity : String) (now : Nat) : ServerState × List Emission :=
  if d.isAdmin = some true then
    match d.roomId, d.roomCode with
    | some roomId, some roomCode =>
        let sev := jsToUpper severity
        if severityKeys.contains sev then
          let ev : CrisisEvent :=
            { id := s.nextId
              roomId := roomId
              title := title
              description := description
              severity := sev
              source := EventSource.MANUAL
              triggeredAt := now
              ackAt := none }
          let msg : Message :=
            { id := s.nextId + 1
              roomId := roomId
              authorName := some (d.displayName.getD "Formateur")
              msgType := MessageType.EVENT
              content := description }
          ({ s with
              crisisEvents := s.crisisEvents ++ [ev]
              messages := s.messages ++ [msg]
              nextId := s.nextId + 2 },
           [Emission.eventCreated roomCode ev.id,
            Emission.announcement roomCode ("Injection formateur : " ++ title)])
        else (s, [Emission.errorToSocket sockId "Severite invalide pour l evenement."])
    | _, _ => (s, [Emission.errorToSocket sockId "Salle introuvable cote serveur."])
  else
    (s, [Emission.errorToSocket sockId "Seul un formateur peut injecter un evenement."])

/-- The `event:ack` handler registered in `registerBaseHandlers`: a bare
`prisma.crisisEvent.updateMany({ where: { id }, data: { ackAt: new Date() } })`.
The socket and its data are received but never inspected (no join-state guard). -/
def handleEventAck (s : ServerState) (_sockId : Nat) (_d : SocketData)
    (eventId : Nat) (now : Nat) : ServerState :=
  { s with
      crisisEvents :=
        s.crisisEvents.map (fun e =>
          if e.id == eventId then { e with ackAt := some now } else e) }

/-! ### Scheduler -/

/-- The `severityOptions` pool of the scheduler tick. -/
def severityOptions : List String := ["LOW", "MODERATE", "HIGH"]

/-- `severityOptions[Math.floor(Math.random() * severityOptions.length)]`; the
random draw is the explicit index `r`, in range in every real execution. -/
def tickSeverity (r : Nat) : String := severityOptions.getD r "LOW"

/-- The `subscribeToScheduler` consumption handler: resolve the room by code,
drop silently if absent, validate severity against the enum keys, then persist
the CrisisEvent (source SCHEDULER) and companion Message and broadcast. -/
def consumeScheduledEvent (s : ServerState) (roomCode severity title description : String)
    (now : Nat) : ServerState × List Emission :=
  let code := jsToUpper roomCode
  match findRoomByCode s.rooms code with
  | none => (s, [])
  | some room =>
      let sevKey := jsToUpper severity
      if severityKeys.contains sevKey then
        let ev : CrisisEvent :=
          { id := s.nextId
            roomId := room.id
            title := title
            description := description
            severity := sevKey
            source := EventSource.SCHEDULER
            triggeredAt := now
            ackAt := none }
        let msg : Message :=
          { id := s.nextId + 1
            roomId := room.id
            authorName := some "Scheduler"
            msgType := MessageType.EVENT
            content := title ++ " - " ++ description }
        ({ s with
            crisisEvents := s.crisisEvents ++ [ev]
            messages := s.messages ++ [msg]
            nextId := s.nextId + 2 },
         [Emission.eventCreated code ev.id,
          Emission.announcement code ("Evenement automatique declenche : " ++ title)])
      else (s, [])

/-- One scheduler tick for a room code. A tick can fire only while the timer for
that code is alive (the code is a key of the scheduler map); firing re-arms the
timer, draws a severity from the restricted pool and hands the payload to the
gateway subscription. -/
def schedulerTick (s : ServerState) (roomCode : String) (r : Nat) (now : Nat) :
    ServerState × List Emission :=
  if s.activeSchedulers.contains roomCode then
    let severity := tickSeverity r
    consumeScheduledEvent s roomCode severity
      ("Evenement aleatoire (" ++ severity ++ ")")
      "Placeholder - brancher le generateur metier." now
  else (s, [])

/-- `closeRoomAction({ roomId, roomCode })` from the admin page. If the room id
does not resolve, `prisma.room.update` throws and the catch block swallows it,
so neither the participant update nor `stopRoomScheduler` runs. -/
def closeRoomAction (s : ServerState) (roomId : Nat) (roomCode : String) (now : Nat) :
    ServerState × List Emission :=
  if roomCode = "" then (s, [])
  else
    match findRoomById s.rooms roomId with
    | none => (s, [])
    | some _ =>
        let rooms :=
          s.rooms.map (fun r => if r.id == roomId then { r with isActive := false } else r)
        let participants :=
          s.participants.map (fun p =>
            if p.roomId == roomId && p.isConnected then
              { p with isConnected := false, leftAt := some now }
            else p)
        let scheds := stopRoomScheduler s.activeSchedulers (jsToUpper roomCode)
        ({ s with rooms := rooms, participants := participants, activeSchedulers := scheds },
         [Emission.announcement (jsToUpper roomCode)
            "Cette salle a ete fermee par un administrateur."])

/-! ### Operation sequences -/

/-- One inbound operation on the core, with the issuing connection's socket
data made explicit. -/
inductive Op where
  | join (sockId : Nat) (d : SocketData) (roomCode displayName : String)
      (isAdmin : Bool) (now : Nat)
  | leave (sockId : Nat) (d : SocketData) (roomCode : String) (now : Nat)
  | chat (sockId : Nat) (d : SocketData) (content : String)
  | manualEvent (sockId : Nat) (d : SocketData) (title description severity : String)
      (now : Nat)
  | ack (sockId : Nat) (d : SocketData) (eventId : Nat) (now : Nat)
  | tick (roomCode : String) (r : Nat) (now : Nat)
  | close (roomId : Nat) (roomCode : String) (now : Nat)
deriving DecidableEq, Repr

def applyOp (s : ServerState) : Op → ServerState
  | Op.join sockId d rc dn a now => (handleJoin s sockId d rc dn a now).1
  | Op.leave sockId d rc now => (handleLeave s sockId d rc now).1
  | Op.chat sockId d content => (handleChatMessage s sockId d content).1
  | Op.manualEvent sockId d t desc sev now => (handleManualEvent s sockId d t desc sev now).1
  | Op.ack sockId d eid now => handleEventAck s sockId d eid now
  | Op.tick rc r now => (schedulerTick s rc r now).1
  | Op.close rid rc now => (closeRoomAction s rid rc now).1

def applyOps (s : ServerState) (ops : List Op) : ServerState :=
  ops.foldl applyOp s

/-- Holds when `op` is not a join carrying the admin flag that targets
(normalizes to) room code `c` — the only operation that can start a scheduler. -/
def notAdminJoinFor (c : String) : Op → Prop
  | Op.join _ _ rc _ a _ => a = true → jsToUpper rc ≠ c
  | _ => True

instance (c : String) (op : Op) : Decidable (notAdminJoinFor c op) := by
  cases op <;> simp [notAdminJoinFor] <;> infer_instance

/-! ### Shared list lemmas -/

lemma map_map_eq_map {α : Type} (g1 g2 g3 : α → α) (h : ∀ a, g2 (g1 a) = g3 a)
    (l : List α) : (l.map g1).map g2 = l.map g3 := by
  induction l with
  | nil => rfl
  | cons a t ih => simp [h a, ih]

lemma map_comp_eq_map {α β : Type} (g : α → α) (f : α → β) (h : ∀ a, f (g a) = f a)
    (l : List α) : (l.map g).map f = l.map f := by
  induction l with
  | nil => rfl
  | cons a t ih => simp [h a, ih]

lemma filter_map_length_of_pred_preserved {α : Type} (g : α → α) (p : α → Bool)
    (h : ∀ a, p (g a) = p a) (l : List α) :
    ((l.map g).filter p).length = (l.filter p).length := by
  induction l with
  | nil => rfl
  | cons a t ih =>
    by_cases hp : p a
    · simp [List.filter_cons, h a, hp, ih]
    · simp [List.filter_cons, h a, hp, ih]

/-! ### C2: non-admin join on a nonexistent room is a pure error -/

/-- C2: for every room code with no persisted Room, a join with the admin flag
false leaves the whole server state untouched (no Room created, no registry or
scheduler mutation), leaves the socket data untouched, and produces exactly one
"room not found" error emission addressed to the originating socket only. -/
theorem join_nonexistent_nonadmin_noop (s : ServerState) (sockId : Nat)
    (d : SocketData) (roomCode displayName : String) (now : Nat)
    (hr : findRoomByCode s.rooms (jsToUpper roomCode) = none) :
    (handleJoin s sockId d roomCode displayName false now).1 = s ∧
    (handleJoin s sockId d roomCode displayName false now).2.1 = d ∧
    (handleJoin s sockId d roomCode displayName false now).2.2 =
      [Emission.errorToSocket sockId
        ("La salle " ++ jsToUpper roomCode ++ " n existe pas encore.")] := by
  simp [handleJoin, hr]

theorem join_nonexistent_nonadmin_noop_witness :
    findRoomByCode (⟨[], [], [], [], [], [], 0⟩ : ServerState).rooms (jsToUpper "ab") = none ∧
    ((handleJoin ⟨[], [], [], [], [], [], 0⟩ 1 ⟨none, none, none, none, none⟩
        "ab" "Alice" false 0).1 = (⟨[], [], [], [], [], [], 0⟩ : ServerState) ∧
     (handleJoin ⟨[], [], [], [], [], [], 0⟩ 1 ⟨none, none, none, none, none⟩
        "ab" "Alice" false 0).2.1 = (⟨none, none, none, none, none⟩ : SocketData) ∧
     (handleJoin ⟨[], [], [], [], [], [], 0⟩ 1 ⟨none, none, none, none, none⟩
        "ab" "Alice" false 0).2.2 =
       [Emission.errorToSocket 1 ("La salle " ++ jsToUpper "ab" ++ " n existe pas encore.")]) :=
  ⟨by decide,
   join_nonexistent_nonadmin_noop ⟨[], [], [], [], [], [], 0⟩ 1
     ⟨none, none, none, none, none⟩ "ab" "Alice" 0 (by decide)⟩

/-! ### C4: non-admin event injection is a pure error -/

/-- C4: an `event:create` from a connection whose socket data does not carry
the admin privilege persists nothing (state unchanged, hence no CrisisEvent and
no Message) and produces exactly one error emission addressed to the
originating socket only — nothing is broadcast to the room. -/
theorem manual_event_nonadmin_rejected (s : ServerState) (sockId : Nat)
    (d : SocketData) (title description severity : String) (now : Nat)
    (h : d.isAdmin ≠ some true) :
    (handleManualEvent s sockId d title description severity now).1 = s ∧
    (handleManualEvent s sockId d title description severity now).2 =
      [Emission.errorToSocket sockId "Seul un formateur peut injecter un evenement."] := by
  simp [handleManualEvent, h]

theorem manual_event_nonadmin_rejected_witness :
    (⟨some "AB", some 0, some 1, some "Alice", some false⟩ : SocketData).isAdmin ≠ some true ∧
    ((handleManualEvent ⟨[], [], [], [], [], [], 0⟩ 4
        ⟨some "AB", some 0, some 1, some "Alice", some false⟩ "T" "D" "HIGH" 9).1 =
      (⟨[], [], [], [], [], [], 0⟩ : ServerState) ∧
     (handleManualEvent ⟨[], [], [], [], [], [], 0⟩ 4
        ⟨some "AB", some 0, some 1, some "Alice", some false⟩ "T" "D" "HIGH" 9).2 =
       [Emission.errorToSocket 4 "Seul un formateur peut injecter un evenement."]) :=
  ⟨by decide,
   manual_event_nonadmin_rejected ⟨[], [], [], [], [], [], 0⟩ 4
     ⟨some "AB", some 0, some 1, some "Alice", some false⟩ "T" "D" "HIGH" 9 (by decide)⟩

/-! ### C9: acknowledgment frame conditions -/

/-- C9: `event:ack` mutates only the `ackAt` field of the CrisisEvents whose id
matches, setting it to the current time; every other field of every CrisisEvent
(id, room, title, description, severity, source, triggeredAt), the events not
matching the id, and every other entity and registry are left unchanged.
Re-acking an already-acknowledged event is no error: it just overwrites the
timestamp, so acking twice equals acking once at the later time. -/
theorem event_ack_frame (s : ServerState) (sockId sockId' : Nat) (d d' : SocketData)
    (eventId now t1 : Nat) :
    (handleEventAck s sockId d eventId now).rooms = s.rooms ∧
    (handleEventAck s sockId d eventId now).participants = s.participants ∧
    (handleEventAck s sockId d eventId now).messages = s.messages ∧
    (handleEventAck s sockId d eventId now).roomConnections = s.roomConnections ∧
    (handleEventAck s sockId d eventId now).activeSchedulers = s.activeSchedulers ∧
    (handleEventAck s sockId d eventId now).nextId = s.nextId ∧
    (handleEventAck s sockId d eventId now).crisisEvents.length = s.crisisEvents.length ∧
    (∀ i (hi : i < s.crisisEvents.length)
        (hi' : i < (handleEventAck s sockId d eventId now).crisisEvents.length),
      ((handleEventAck s sockId d eventId now).crisisEvents.get ⟨i, hi'⟩).id =
          (s.crisisEvents.get ⟨i, hi⟩).id ∧
      ((handleEventAck s sockId d eventId now).crisisEvents.get ⟨i, hi'⟩).roomId =
          (s.crisisEvents.get ⟨i, hi⟩).roomId ∧
      ((handleEventAck s sockId d eventId now).crisisEvents.get ⟨i, hi'⟩).title =
          (s.crisisEvents.get ⟨i, hi⟩).title ∧
      ((handleEventAck s sockId d eventId now).crisisEvents.get ⟨i, hi'⟩).description =
          (s.crisisEvents.get ⟨i, hi⟩).description ∧
      ((handleEventAck s sockId d eventId now).crisisEvents.get ⟨i, hi'⟩).severity =
          (s.crisisEvents.get ⟨i, hi⟩).severity ∧
      ((handleEventAck s sockId d eventId now).crisisEvents.get ⟨i, hi'⟩).source =
          (s.crisisEvents.get ⟨i, hi⟩).source ∧
      ((handleEventAck s sockId d eventId now).crisisEvents.get ⟨i, hi'⟩).triggeredAt =
          (s.crisisEvents.get ⟨i, hi⟩).triggeredAt ∧
      ((s.crisisEvents.get ⟨i, hi⟩).id = eventId →
        ((handleEventAck s sockId d eventId now).crisisEvents.get ⟨i, hi'⟩).ackAt = some now) ∧
      ((s.crisisEvents.get ⟨i, hi⟩).id ≠ eventId →
        ((handleEventAck s sockId d eventId now).crisisEvents.get ⟨i, hi'⟩).ackAt =
          (s.crisisEvents.get ⟨i, hi⟩).ackAt)) ∧
    handleEventAck (handleEventAck s sockId d eventId t1) sockId' d' eventId now =
      handleEventAck s sockId d eventId now := by
  refine ⟨rfl, rfl, rfl, rfl, rfl, rfl, by simp [handleEventAck], ?_, ?_⟩
  · intro i hi hi'
    simp only [handleEventAck, List.get_eq_getElem, List.getElem_map]
    by_cases h : s.crisisEvents[i].id = eventId <;> simp [h]
  · simp only [handleEventAck]
    congr 1
    apply map_map_eq_map
    intro e
    by_cases h : e.id = eventId <;> simp [h]

theorem event_ack_frame_witness :
    (handleEventAck
        ⟨[], [], [],
         [⟨3, 0, "t", "d", "LOW", EventSource.MANUAL, 0, some 1⟩], [], [], 4⟩
        9 ⟨none, none, none, none, none⟩ 3 5).crisisEvents.length =
      (⟨[], [], [],
        [⟨3, 0, "t", "d", "LOW", EventSource.MANUAL, 0, some 1⟩], [], [], 4⟩ :
          ServerState).crisisEvents.length ∧
    handleEventAck
        (handleEventAck
          ⟨[], [], [],
           [⟨3, 0, "t", "d", "LOW", EventSource.MANUAL, 0, some 1⟩], [], [], 4⟩
          9 ⟨none, none, none, none, none⟩ 3 2)
        9 ⟨none, none, none, none, none⟩ 3 5 =
      handleEventAck
        ⟨[], [], [],
         [⟨3, 0, "t", "d", "LOW", EventSource.MANUAL, 0, some 1⟩], [], [], 4⟩
        9 ⟨none, none, none, none, none⟩ 3 5 :=
  ⟨(event_ack_frame
      ⟨[], [], [], [⟨3, 0, "t", "d", "LOW", EventSource.MANUAL, 0, some 1⟩], [], [], 4⟩
      9 9 ⟨none, none, none, none, none⟩ ⟨none, none, none, none, none⟩ 3 5 2).2.2.2.2.2.2.1,
   (event_ack_frame
      ⟨[], [], [], [⟨3, 0, "t", "d", "LOW", EventSource.MANUAL, 0, some 1⟩], [], [], 4⟩
      9 9 ⟨none, none, none, none, none⟩ ⟨none, none, none, none, none⟩ 3 5 2).2.2.2.2.2.2.2.2⟩

/-! ### C6: scheduler-sourced severities come from the restricted pool -/

lemma consume_mem (s : ServerState) (rc sev title descr : String) (now : Nat)
    (e : CrisisEvent)
    (he : e ∈ (consumeScheduledEvent s rc sev title descr now).1.crisisEvents) :
    e ∈ s.crisisEvents ∨ (e.severity = jsToUpper sev ∧ e.source = EventSource.SCHEDULER) := by
  simp only [consumeScheduledEvent] at he
  split at he
  · exact Or.inl he
  · split at he
    · rcases List.mem_append.mp he with h1 | h1
      · exact Or.inl h1
      · simp only [List.mem_singleton] at h1
        subst h1
        exact Or.inr ⟨rfl, rfl⟩
    · exact Or.inl he

/-- C6: the scheduler draws severities from the pool `[LOW, MODERATE, HIGH]`,
so a tick never carries severity CRITICAL, and every CrisisEvent a scheduler
tick appends to the store carries that drawn severity (with source SCHEDULER),
hence is never CRITICAL either. -/
theorem scheduler_severity_restricted (r : Nat) (h : r < severityOptions.length) :
    tickSeverity r ∈ severityOptions ∧
    tickSeverity r ≠ "CRITICAL" ∧
    (∀ (s : ServerState) (roomCode : String) (now : Nat),
      ∀ e ∈ (schedulerTick s roomCode r now).1.crisisEvents,
        e ∈ s.crisisEvents ∨
          (e.severity = tickSeverity r ∧ e.severity ≠ "CRITICAL" ∧
           e.source = EventSource.SCHEDULER)) := by
  have hr : r = 0 ∨ r = 1 ∨ r = 2 := by
    simp only [severityOptions, List.length_cons, List.length_nil] at h
    omega
  have key : tickSeverity r ∈ severityOptions ∧ tickSeverity r ≠ "CRITICAL" ∧
      jsToUpper (tickSeverity r) = tickSeverity r := by
    rcases hr with h0 | h0 | h0 <;> subst h0 <;> exact ⟨by decide, by decide, by decide⟩
  refine ⟨key.1, key.2.1, ?_⟩
  intro s roomCode now e he
  simp only [schedulerTick] at he
  split at he
  · rcases consume_mem _ _ _ _ _ _ _ he with h1 | h1
    · exact Or.inl h1
    · exact Or.inr ⟨h1.1.trans key.2.2,
        by rw [h1.1.trans key.2.2]; exact key.2.1, h1.2⟩
  · exact Or.inl he

theorem scheduler_severity_restricted_witness :
    1 < severityOptions.length ∧
    tickSeverity 1 ∈ severityOptions ∧ tickSeverity 1 ≠ "CRITICAL" :=
  ⟨by decide,
   (scheduler_severity_restricted 1 (by decide)).1,
   (scheduler_severity_restricted 1 (by decide)).2.1⟩

/-! ### C5: severity validation at the event-create boundary

The handler validates `payload.severity.toUpperCase()`, not the raw value:
a lowercase `"low"` lies outside the enumeration `{LOW, MODERATE, HIGH,
CRITICAL}` as stated, yet is accepted and persisted (uppercased). The claim
holds once "severity value" is read up to uppercase normalization. -/

theorem lowercase_severity_persisted_counterexample :
    "low" ∉ severityKeys ∧
    (handleManualEvent
        ⟨[⟨0, "AB", none, true⟩], [⟨1, 0, "F", "formateur", true, 0, none⟩],
         [], [], [("AB", [7])], ["AB"], 2⟩
        7 ⟨some "AB", some 0, some 1, some "F", some true⟩ "T" "D" "low" 9).1.crisisEvents =
      [⟨2, 0, "T", "D", "LOW", EventSource.MANUAL, 9, none⟩] ∧
    (handleManualEvent
        ⟨[⟨0, "AB", none, true⟩], [⟨1, 0, "F", "formateur", true, 0, none⟩],
         [], [], [("AB", [7])], ["AB"], 2⟩
        7 ⟨some "AB", some 0, some 1, some "F", some true⟩ "T" "D" "low" 9).2 =
      [Emission.eventCreated "AB" 2,
       Emission.announcement "AB" "Injection formateur : T"] := by
  decide

/-- C5 (amended): for every `event:create` from an admin-joined connection
whose severity, after uppercase normalization, lies outside the enumeration
`{LOW, MODERATE, HIGH, CRITICAL}`, the command fails with a validation signal
to the originator only and nothing at all is persisted (no CrisisEvent, no
Message — the state is unchanged, so no partial writes). -/
theorem invalid_normalized_severity_rejected (s : ServerState) (sockId rid : Nat)
    (d : SocketData) (title description severity : String) (now : Nat) (rc : String)
    (ha : d.isAdmin = some true) (hrid : d.roomId = some rid)
    (hrc : d.roomCode = some rc)
    (hsev : jsToUpper severity ∉ severityKeys) :
    (handleManualEvent s sockId d title description severity now).1 = s ∧
    (handleManualEvent s sockId d title description severity now).2 =
      [Emission.errorToSocket sockId "Severite invalide pour l evenement."] := by
  simp [handleManualEvent, ha, hrid, hrc, hsev]

theorem invalid_normalized_severity_rejected_witness :
    ((⟨some "AB", some 0, some 1, some "F", some true⟩ : SocketData).isAdmin = some true ∧
     (⟨some "AB", some 0, some 1, some "F", some true⟩ : SocketData).roomId = some 0 ∧
     (⟨some "AB", some 0, some 1, some "F", some true⟩ : SocketData).roomCode = some "AB" ∧
     jsToUpper "banane" ∉ severityKeys) ∧
    ((handleManualEvent ⟨[], [], [], [], [], [], 0⟩ 7
        ⟨some "AB", some 0, some 1, some "F", some true⟩ "T" "D" "banane" 9).1 =
      (⟨[], [], [], [], [], [], 0⟩ : ServerState) ∧
     (handleManualEvent ⟨[], [], [], [], [], [], 0⟩ 7
        ⟨some "AB", some 0, some 1, some "F", some true⟩ "T" "D" "banane" 9).2 =
       [Emission.errorToSocket 7 "Severite invalide pour l evenement."]) :=
  ⟨⟨by decide, by decide, by decide, by decide⟩,
   invalid_normalized_severity_rejected ⟨[], [], [], [], [], [], 0⟩ 7 0
     ⟨some "AB", some 0, some 1, some "F", some true⟩ "T" "D" "banane" 9 "AB"
     (by decide) (by decide) (by decide) (by decide)⟩

/-! ### C8: command gating for unjoined connections

`chat:message` and `event:create` are guarded by the socket data a join fills
in, but the `event:ack` registration performs its `updateMany` with no guard at
all, so an unjoined connection can acknowledge events. -/

theorem unjoined_ack_mutates_counterexample :
    (handleEventAck
        ⟨[⟨0, "AB", none, true⟩], [], [],
         [⟨3, 0, "t", "d", "LOW", EventSource.MANUAL, 0, none⟩], [], [], 4⟩
        9 ⟨none, none, none, none, none⟩ 3 5).crisisEvents =
      [⟨3, 0, "t", "d", "LOW", EventSource.MANUAL, 0, some 5⟩] ∧
    (handleEventAck
        ⟨[⟨0, "AB", none, true⟩], [], [],
         [⟨3, 0, "t", "d", "LOW", EventSource.MANUAL, 0, none⟩], [], [], 4⟩
        9 ⟨none, none, none, none, none⟩ 3 5).crisisEvents ≠
      (⟨[⟨0, "AB", none, true⟩], [], [],
        [⟨3, 0, "t", "d", "LOW", EventSource.MANUAL, 0, none⟩], [], [], 4⟩ :
          ServerState).crisisEvents := by
  decide

/-- C8 (amended): a connection that has not completed a join (socket data still
empty) has its `chat:message` and `event:create` commands rejected — the state
is unchanged and exactly one error goes to the originator, nothing to the room.
`event:ack` carries no such guard: it runs its update regardless of join state
(see the counterexample), so it is excluded here. -/
theorem unjoined_chat_event_rejected (s : ServerState) (sockId : Nat)
    (d : SocketData) (content title description severity : String) (now : Nat)
    (hrid : d.roomId = none) (ha : d.isAdmin = none) :
    (handleChatMessage s sockId d content).1 = s ∧
    (handleChatMessage s sockId d content).2 =
      [Emission.errorToSocket sockId "Impossible d identifier la salle courante."] ∧
    (handleManualEvent s sockId d title description severity now).1 = s ∧
    (handleManualEvent s sockId d title description severity now).2 =
      [Emission.errorToSocket sockId "Seul un formateur peut injecter un evenement."] := by
  refine ⟨?_, ?_, ?_, ?_⟩ <;>
    simp [handleChatMessage, handleManualEvent, hrid, ha]

theorem unjoined_chat_event_rejected_witness :
    ((⟨none, none, none, none, none⟩ : SocketData).roomId = none ∧
     (⟨none, none, none, none, none⟩ : SocketData).isAdmin = none) ∧
    ((handleChatMessage ⟨[], [], [], [], [], [], 0⟩ 2
        ⟨none, none, none, none, none⟩ "salut").1 =
      (⟨[], [], [], [], [], [], 0⟩ : ServerState) ∧
     (handleChatMessage ⟨[], [], [], [], [], [], 0⟩ 2
        ⟨none, none, none, none, none⟩ "salut").2 =
       [Emission.errorToSocket 2 "Impossible d identifier la salle courante."] ∧
     (handleManualEvent ⟨[], [], [], [], [], [], 0⟩ 2
        ⟨none, none, none, none, none⟩ "T" "D" "HIGH" 4).1 =
      (⟨[], [], [], [], [], [], 0⟩ : ServerState) ∧
     (handleManualEvent ⟨[], [], [], [], [], [], 0⟩ 2
        ⟨none, none, none, none, none⟩ "T" "D" "HIGH" 4).2 =
       [Emission.errorToSocket 2 "Seul un formateur peut injecter un evenement."]) :=
  ⟨⟨by decide, by decide⟩,
   unjoined_chat_event_rejected ⟨[], [], [], [], [], [], 0⟩ 2
     ⟨none, none, none, none, none⟩ "salut" "T" "D" "HIGH" 4 (by decide) (by decide)⟩

/-! ### C7: the formateur role is never downgraded -/

lemma eq_of_filter_le_one {α : Type} (p : α → Bool) (l : List α)
    (h : (l.filter p).length ≤ 1) {a b : α} (ha : a ∈ l) (hpa : p a)
    (hb : b ∈ l) (hpb : p b) : a = b := by
  have ha' : a ∈ l.filter p := List.mem_filter.mpr ⟨ha, hpa⟩
  have hb' : b ∈ l.filter p := List.mem_filter.mpr ⟨hb, hpb⟩
  rcases Nat.le_one_iff_eq_zero_or_eq_one.mp h with h0 | h1
  · rw [List.length_eq_zero] at h0
    rw [h0] at ha'
    cases ha'
  · rcases List.length_eq_one.mp h1 with ⟨x, hx⟩
    rw [hx] at ha' hb'
    simp only [List.mem_singleton] at ha' hb'
    rw [ha', hb']

lemma joinRoomPhase_role_preserved (s : ServerState) (sockId : Nat) (d : SocketData)
    (room : Room) (code displayName : String) (isAdmin : Bool) (now : Nat)
    (p : Participant)
    (hfresh : ∀ q ∈ s.participants, q.id < s.nextId)
    (hnd : (s.participants.map (fun q => q.id)).Nodup)
    (hp : p ∈ s.participants) (hrole : p.role = "formateur") :
    ∀ q ∈ (joinRoomPhase s sockId d room code displayName isAdmin now).1.participants,
      q.id = p.id → q.role = "formateur" := by
  intro q hq hid
  simp only [joinRoomPhase] at hq
  rcases hfind : findParticipant s.participants room.id displayName with _ | existing <;>
      rw [hfind] at hq
  · simp only [List.mem_append, List.mem_singleton] at hq
    rcases hq with hq | rfl
    · rw [List.inj_on_of_nodup_map hnd hq hp hid]
      exact hrole
    · exact absurd hid (by have := hfresh p hp; simp; omega)
  · simp only [List.mem_map] at hq
    obtain ⟨q0, hq0, rfl⟩ := hq
    have hidq0 : q0.id = p.id := by
      by_cases hb : q0.id == existing.id <;> simp [hb] at hid <;> simpa using hid
    have hq0p : q0 = p := List.inj_on_of_nodup_map hnd hq0 hp hidq0
    subst hq0p
    have hexmem : existing ∈ s.participants := List.mem_of_find?_eq_some hfind
    by_cases hb : q0.id == existing.id
    · have hex : existing = q0 :=
        List.inj_on_of_nodup_map hnd hexmem hq0 (by simpa using (beq_iff_eq.mp hb).symm)
      cases isAdmin <;> simp [hb, hex, hrole]
    · simp [hb, hrole]

lemma joinRoomPhase_admin_escalates (s : ServerState) (sockId : Nat) (d : SocketData)
    (room : Room) (code displayName : String) (now : Nat)
    (hcnt : (s.participants.filter (pairPred room.id displayName)).length ≤ 1) :
    ∀ q ∈ (joinRoomPhase s sockId d room code displayName true now).1.participants,
      pairPred room.id displayName q = true → q.role = "formateur" := by
  intro q hq hpred
  simp only [joinRoomPhase] at hq
  rcases hfind : findParticipant s.participants room.id displayName with _ | existing <;>
      rw [hfind] at hq
  · simp only [List.mem_append, List.mem_singleton] at hq
    rcases hq with hq | rfl
    · exact absurd hpred (by
        have := List.find?_eq_none.mp hfind q hq
        simpa [findParticipant] using this)
    · rfl
  · simp only [List.mem_map] at hq
    obtain ⟨q0, hq0, rfl⟩ := hq
    have hpred0 : pairPred room.id displayName q0 = true := by
      by_cases hb : q0.id == existing.id <;> simpa [pairPred, hb] using hpred
    have hpredex : pairPred room.id displayName existing = true :=
      List.find?_some hfind
    have hexmem : existing ∈ s.participants := List.mem_of_find?_eq_some hfind
    have : q0 = existing :=
      eq_of_filter_le_one (pairPred room.id displayName) s.participants hcnt hq0 hpred0
        hexmem hpredex
    subst this
    simp

/-- C7: a participant whose stored role is "formateur" keeps that role across
every subsequent join: the row for its id still reads "formateur" after any
join of any connection (admin or not, same name or not), and an admin join into
an existing room sets every row of the joined (room, displayName) pair to
"formateur" — it escalates and never downgrades. -/
theorem formateur_never_downgraded (s : ServerState) (sockId : Nat) (d : SocketData)
    (roomCode displayName : String) (isAdmin : Bool) (now : Nat) (p : Participant)
    (hfresh : ∀ q ∈ s.participants, q.id < s.nextId)
    (hnd : (s.participants.map (fun q => q.id)).Nodup)
    (hp : p ∈ s.participants) (hrole : p.role = "formateur") :
    (∀ q ∈ (handleJoin s sockId d roomCode displayName isAdmin now).1.participants,
        q.id = p.id → q.role = "formateur") ∧
    (∀ r, findRoomByCode s.rooms (jsToUpper roomCode) = some r →
      isAdmin = true →
      countPair s r.id displayName ≤ 1 →
      ∀ q ∈ (handleJoin s sockId d roomCode displayName isAdmin now).1.participants,
        pairPred r.id displayName q = true → q.role = "formateur") := by
  constructor
  · intro q hq hid
    rcases hr : findRoomByCode s.rooms (jsToUpper roomCode) with _ | room
    · by_cases hA : isAdmin
      · simp only [handleJoin, hr, if_pos hA] at hq
        exact joinRoomPhase_role_preserved
          { s with
              rooms := s.rooms ++
                [⟨s.nextId, jsToUpper roomCode, some ("Salle " ++ jsToUpper roomCode), true⟩]
              nextId := s.nextId + 1 }
          sockId d
          ⟨s.nextId, jsToUpper roomCode, some ("Salle " ++ jsToUpper roomCode), true⟩
          (jsToUpper roomCode) displayName isAdmin now p
          (fun q' hq' => Nat.lt_succ_of_lt (hfresh q' hq')) hnd hp hrole q hq hid
      · simp only [handleJoin, hr, if_neg hA] at hq
        rw [List.inj_on_of_nodup_map hnd hq hp hid]
        exact hrole
    · simp only [handleJoin, hr] at hq
      exact joinRoomPhase_role_preserved s sockId d room _ displayName isAdmin now p
        hfresh hnd hp hrole q hq hid
  · intro r hr hA hcnt q hq hpred
    subst hA
    simp only [handleJoin, hr] at hq
    exact joinRoomPhase_admin_escalates s sockId d r _ displayName now hcnt q hq hpred

theorem formateur_never_downgraded_witness :
    ((∀ q ∈ (⟨[⟨0, "AB", none, true⟩],
        [⟨1, 0, "F", "formateur", false, 0, some 2⟩], [], [], [], [], 2⟩ :
          ServerState).participants, q.id < 2) ∧
     ((⟨[⟨0, "AB", none, true⟩],
        [⟨1, 0, "F", "formateur", false, 0, some 2⟩], [], [], [], [], 2⟩ :
          ServerState).participants.map (fun q => q.id)).Nodup ∧
     (⟨1, 0, "F", "formateur", false, 0, some 2⟩ : Participant) ∈
       (⟨[⟨0, "AB", none, true⟩],
         [⟨1, 0, "F", "formateur", false, 0, some 2⟩], [], [], [], [], 2⟩ :
           ServerState).participants) ∧
    (∀ q ∈ (handleJoin
        ⟨[⟨0, "AB", none, true⟩],
         [⟨1, 0, "F", "formateur", false, 0, some 2⟩], [], [], [], [], 2⟩
        5 ⟨none, none, none, none, none⟩ "ab" "F" false 7).1.participants,
      q.id = (⟨1, 0, "F", "formateur", false, 0, some 2⟩ : Participant).id →
      q.role = "formateur") :=
  ⟨⟨by decide, by decide, by decide⟩,
   (formateur_never_downgraded
      ⟨[⟨0, "AB", none, true⟩],
       [⟨1, 0, "F", "formateur", false, 0, some 2⟩], [], [], [], [], 2⟩
      5 ⟨none, none, none, none, none⟩ "ab" "F" false 7
      ⟨1, 0, "F", "formateur", false, 0, some 2⟩
      (by decide) (by decide) (by decide) (by decide)).1⟩

/-! ### C1: join is an upsert — one Participant row per (room, displayName) -/

lemma handleJoin_rooms_of_found (s : ServerState) (sockId : Nat) (d : SocketData)
    (roomCode name : String) (a : Bool) (now : Nat) (r : Room)
    (hr : findRoomByCode s.rooms (jsToUpper roomCode) = some r) :
    (handleJoin s sockId d roomCode name a now).1.rooms = s.rooms := by
  simp only [handleJoin, hr]
  rfl

lemma handleLeave_rooms (s : ServerState) (sockId : Nat) (d : SocketData)
    (roomCode : String) (now : Nat) :
    (handleLeave s sockId d roomCode now).1.rooms = s.rooms := rfl

lemma leaveUpd_pred (rid : Nat) (name : String) (pid now : Nat) (p : Participant) :
    pairPred rid name
      (if p.id == pid then { p with isConnected := false, leftAt := some now } else p) =
    pairPred rid name p := by
  by_cases h : p.id == pid <;> simp [pairPred, h]

lemma handleLeave_countPair (s : ServerState) (sockId : Nat) (d : SocketData)
    (roomCode : String) (now rid : Nat) (name : String) :
    countPair (handleLeave s sockId d roomCode now).1 rid name = countPair s rid name := by
  rcases hpid : d.participantId with _ | pid <;>
    simp only [handleLeave, countPair, hpid]
  exact filter_map_length_of_pred_preserved _ _ (leaveUpd_pred rid name pid now) _

lemma handleLeave_ids (s : ServerState) (sockId : Nat) (d : SocketData)
    (roomCode : String) (now : Nat) :
    (handleLeave s sockId d roomCode now).1.participants.map (fun p => p.id) =
      s.participants.map (fun p => p.id) := by
  rcases hpid : d.participantId with _ | pid <;>
    simp only [handleLeave, hpid]
  exact map_comp_eq_map _ _ (fun p => by by_cases h : p.id == pid <;> simp [h]) _

lemma joinUpd_pred (rid : Nat) (name : String) (existing : Participant) (a : Bool)
    (p : Participant) :
    pairPred rid name
      (if p.id == existing.id then
        { p with
          isConnected := true
          leftAt := none
          role := if a then "formateur" else existing.role }
      else p) =
    pairPred rid name p := by
  by_cases h : p.id == existing.id <;> simp [pairPred, h]

lemma handleJoin_countPair (s : ServerState) (sockId : Nat) (d : SocketData)
    (roomCode name : String) (a : Bool) (now : Nat) (r : Room)
    (hr : findRoomByCode s.rooms (jsToUpper roomCode) = some r) :
    countPair (handleJoin s sockId d roomCode name a now).1 r.id name =
      if countPair s r.id name = 0 then 1 else countPair s r.id name := by
  simp only [handleJoin, hr, joinRoomPhase, countPair]
  rcases hfind : findParticipant s.participants r.id name with _ | existing <;>
      simp only [hfind]
  · have hnone : s.participants.filter (pairPred r.id name) = [] := by
      rw [List.filter_eq_nil_iff]
      intro q hq
      simpa [findParticipant] using List.find?_eq_none.mp hfind q hq
    simp [List.filter_append, hnone, List.filter_cons, pairPred]
  · have hmem : existing ∈ s.participants.filter (pairPred r.id name) :=
      List.mem_filter.mpr ⟨List.mem_of_find?_eq_some hfind, List.find?_some hfind⟩
    have hne : (s.participants.filter (pairPred r.id name)).length ≠ 0 := by
      intro h0
      rw [List.length_eq_zero] at h0
      rw [h0] at hmem
      cases hmem
    rw [filter_map_length_of_pred_preserved _ _ (joinUpd_pred r.id name existing a)]
    simp [hne]

lemma handleJoin_ids_of_exists (s : ServerState) (sockId : Nat) (d : SocketData)
    (roomCode name : String) (a : Bool) (now : Nat) (r : Room)
    (hr : findRoomByCode s.rooms (jsToUpper roomCode) = some r)
    (hne : countPair s r.id name ≠ 0) :
    (handleJoin s sockId d roomCode name a now).1.participants.map (fun p => p.id) =
      s.participants.map (fun p => p.id) := by
  have hsome : (findParticipant s.participants r.id name).isSome := by
    rw [findParticipant, List.find?_isSome]
    have : s.participants.filter (pairPred r.id name) ≠ [] := by
      intro h0
      exact hne (by rw [countPair, h0]; rfl)
    rcases List.exists_mem_of_ne_nil _ this with ⟨q, hq⟩
    exact ⟨q, (List.mem_filter.mp hq).1, (List.mem_filter.mp hq).2⟩
  rcases hfind : findParticipant s.participants r.id name with _ | existing
  · rw [hfind] at hsome
    cases hsome
  · simp only [handleJoin, hr, joinRoomPhase, hfind]
    exact map_comp_eq_map _ _
      (fun p => by by_cases h : p.id == existing.id <;> simp [h]) _

lemma handleJoin_pair_connected (s : ServerState) (sockId : Nat) (d : SocketData)
    (roomCode name : String) (a : Bool) (now : Nat) (r : Room)
    (hr : findRoomByCode s.rooms (jsToUpper roomCode) = some r)
    (hle : countPair s r.id name ≤ 1) :
    ∀ p ∈ (handleJoin s sockId d roomCode name a now).1.participants,
      pairPred r.id name p = true → (p.isConnected = true ∧ p.leftAt = none) := by
  intro p hp hpred
  simp only [handleJoin, hr, joinRoomPhase] at hp
  rcases hfind : findParticipant s.participants r.id name with _ | existing <;>
      rw [hfind] at hp
  · simp only [List.mem_append, List.mem_singleton] at hp
    rcases hp with hp | rfl
    · exact absurd hpred (by
        simpa [findParticipant] using List.find?_eq_none.mp hfind p hp)
    · exact ⟨rfl, rfl⟩
  · simp only [List.mem_map] at hp
    obtain ⟨p0, hp0, rfl⟩ := hp
    have hpred0 : pairPred r.id name p0 = true := by
      rw [← joinUpd_pred r.id name existing a p0]
      exact hpred
    have : p0 = existing :=
      eq_of_filter_le_one (pairPred r.id name) s.participants hle hp0 hpred0
        (List.mem_of_find?_eq_some hfind) (List.find?_some hfind)
    subst this
    simp

/-- C1: starting from a state with no Participant row for the pair
(room `r`, `displayName`), a join creates exactly one row; a second join —
immediately, or after a disconnect/leave — still leaves exactly one row for
the pair, allocates no new Participant id (it updates, never duplicates), and
the surviving row is marked connected with `leftAt` cleared. -/
theorem join_twice_single_participant_row (s : ServerState)
    (sock1 sock2 : Nat) (d1 d2 : SocketData) (roomCode name : String)
    (a1 a2 : Bool) (t1 t2 t3 : Nat) (r : Room)
    (hr : findRoomByCode s.rooms (jsToUpper roomCode) = some r)
    (h0 : countPair s r.id name = 0) :
    countPair (handleJoin s sock1 d1 roomCode name a1 t1).1 r.id name = 1 ∧
    countPair (handleJoin (handleJoin s sock1 d1 roomCode name a1 t1).1
        sock2 d2 roomCode name a2 t3).1 r.id name = 1 ∧
    (handleJoin (handleJoin s sock1 d1 roomCode name a1 t1).1
        sock2 d2 roomCode name a2 t3).1.participants.map (fun p => p.id) =
      (handleJoin s sock1 d1 roomCode name a1 t1).1.participants.map (fun p => p.id) ∧
    countPair (handleJoin
        (handleLeave (handleJoin s sock1 d1 roomCode name a1 t1).1 sock1
          (handleJoin s sock1 d1 roomCode name a1 t1).2.1 roomCode t2).1
        sock2 d2 roomCode name a2 t3).1 r.id name = 1 ∧
    (handleJoin
        (handleLeave (handleJoin s sock1 d1 roomCode name a1 t1).1 sock1
          (handleJoin s sock1 d1 roomCode name a1 t1).2.1 roomCode t2).1
        sock2 d2 roomCode name a2 t3).1.participants.map (fun p => p.id) =
      (handleLeave (handleJoin s sock1 d1 roomCode name a1 t1).1 sock1
        (handleJoin s sock1 d1 roomCode name a1 t1).2.1 roomCode t2).1.participants.map
        (fun p => p.id) ∧
    (∀ p ∈ (handleJoin
        (handleLeave (handleJoin s sock1 d1 roomCode name a1 t1).1 sock1
          (handleJoin s sock1 d1 roomCode name a1 t1).2.1 roomCode t2).1
        sock2 d2 roomCode name a2 t3).1.participants,
      pairPred r.id name p = true → (p.isConnected = true ∧ p.leftAt = none)) := by
  have c1 : countPair (handleJoin s sock1 d1 roomCode name a1 t1).1 r.id name = 1 := by
    rw [handleJoin_countPair s sock1 d1 roomCode name a1 t1 r hr]
    simp [h0]
  have hr1 : findRoomByCode (handleJoin s sock1 d1 roomCode name a1 t1).1.rooms
      (jsToUpper roomCode) = some r := by
    rw [handleJoin_rooms_of_found s sock1 d1 roomCode name a1 t1 r hr]
    exact hr
  have hrL : findRoomByCode
      (handleLeave (handleJoin s sock1 d1 roomCode name a1 t1).1 sock1
        (handleJoin s sock1 d1 roomCode name a1 t1).2.1 roomCode t2).1.rooms
      (jsToUpper roomCode) = some r := by
    rw [handleLeave_rooms]
    exact hr1
  have cL : countPair
      (handleLeave (handleJoin s sock1 d1 roomCode name a1 t1).1 sock1
        (handleJoin s sock1 d1 roomCode name a1 t1).2.1 roomCode t2).1 r.id name = 1 := by
    rw [handleLeave_countPair]
    exact c1
  refine ⟨c1, ?_, ?_, ?_, ?_, ?_⟩
  · rw [handleJoin_countPair _ sock2 d2 roomCode name a2 t3 r hr1, c1]
    simp
  · exact handleJoin_ids_of_exists _ sock2 d2 roomCode name a2 t3 r hr1 (by rw [c1]; omega)
  · rw [handleJoin_countPair _ sock2 d2 roomCode name a2 t3 r hrL, cL]
    simp
  · exact handleJoin_ids_of_exists _ sock2 d2 roomCode name a2 t3 r hrL (by rw [cL]; omega)
  · exact handleJoin_pair_connected _ sock2 d2 roomCode name a2 t3 r hrL (by rw [cL])

theorem join_twice_single_participant_row_witness :
    (findRoomByCode (⟨[⟨0, "AB", none, true⟩], [], [], [], [], [], 1⟩ : ServerState).rooms
        (jsToUpper "ab") = some ⟨0, "AB", none, true⟩ ∧
     countPair ⟨[⟨0, "AB", none, true⟩], [], [], [], [], [], 1⟩ 0 "Alice" = 0) ∧
    (countPair (handleJoin ⟨[⟨0, "AB", none, true⟩], [], [], [], [], [], 1⟩
        4 ⟨none, none, none, none, none⟩ "ab" "Alice" false 1).1 0 "Alice" = 1 ∧
     countPair (handleJoin (handleJoin ⟨[⟨0, "AB", none, true⟩], [], [], [], [], [], 1⟩
          4 ⟨none, none, none, none, none⟩ "ab" "Alice" false 1).1
        5 ⟨none, none, none, none, none⟩ "ab" "Alice" false 3).1 0 "Alice" = 1) :=
  ⟨⟨by decide, by decide⟩,
   ⟨(join_twice_single_participant_row ⟨[⟨0, "AB", none, true⟩], [], [], [], [], [], 1⟩
       4 5 ⟨none, none, none, none, none⟩ ⟨none, none, none, none, none⟩ "ab" "Alice"
       false false 1 2 3 ⟨0, "AB", none, true⟩ (by decide) (by decide)).1,
    (join_twice_single_participant_row ⟨[⟨0, "AB", none, true⟩], [], [], [], [], [], 1⟩
       4 5 ⟨none, none, none, none, none⟩ ⟨none, none, none, none, none⟩ "ab" "Alice"
       false false 1 2 3 ⟨0, "AB", none, true⟩ (by decide) (by decide)).2.1⟩⟩

/-! ### C10: the connection-registry invariant -/

/-- Every room code present in the in-process connection registry maps to a
non-empty set of connection ids. -/
def RegistryWF (s : ServerState) : Prop :=
  ∀ e ∈ s.roomConnections, e.2 ≠ []

instance (s : ServerState) : Decidable (RegistryWF s) := by
  unfold RegistryWF
  infer_instance

lemma lookupConns_setConns_self (m : List (String × List Nat)) (c : String)
    (l : List Nat) : lookupConns (setConns m c l) c = some l := by
  induction m with
  | nil => simp [setConns, lookupConns]
  | cons e t ih =>
    by_cases he : e.1 == c
    · simp [setConns, lookupConns, he]
    · simpa [setConns, lookupConns, he] using ih

lemma lookupConns_delConns_self (m : List (String × List Nat)) (c : String) :
    lookupConns (delConns m c) c = none := by
  have h : (m.filter (fun e => e.1 != c)).find? (fun e => e.1 == c) = none := by
    rw [List.find?_eq_none]
    intro e he
    have := (List.mem_filter.mp he).2
    simp only [bne_iff_ne, ne_eq] at this
    simpa using this
  simp [lookupConns, delConns, h]

lemma mem_setConns (m : List (String × List Nat)) (c : String) (l : List Nat) :
    ∀ e ∈ setConns m c l, e ∈ m ∨ e = (c, l) := by
  induction m with
  | nil => intro e he; simp [setConns] at he; exact Or.inr he
  | cons x t ih =>
    intro e he
    by_cases hx : x.1 == c
    · simp only [setConns, if_pos hx, List.mem_cons] at he
      rcases he with rfl | he
      · exact Or.inr rfl
      · exact Or.inl (List.mem_cons_of_mem x he)
    · simp only [setConns, if_neg hx, List.mem_cons] at he
      rcases he with rfl | he
      · exact Or.inl (List.mem_cons_self e t)
      · rcases ih e he with h | h
        · exact Or.inl (List.mem_cons_of_mem x h)
        · exact Or.inr h

lemma addToSet_ne_nil (l : List Nat) (x : Nat) : addToSet l x ≠ [] := by
  unfold addToSet
  split
  · rename_i hc
    have hx : x ∈ l := by simpa using hc
    intro h0
    rw [h0] at hx
    cases hx
  · simp

lemma mem_addToSet_self (l : List Nat) (x : Nat) : x ∈ addToSet l x := by
  unfold addToSet
  split
  · rename_i hc
    simpa using hc
  · simp

lemma joinRoomPhase_registry (s : ServerState) (sockId : Nat) (d : SocketData)
    (room : Room) (code displayName : String) (isAdmin : Bool) (now : Nat) :
    (joinRoomPhase s sockId d room code displayName isAdmin now).1.roomConnections =
      setConns s.roomConnections code
        (addToSet ((lookupConns s.roomConnections code).getD []) sockId) := rfl

lemma joinRoomPhase_wf (s : ServerState) (sockId : Nat) (d : SocketData)
    (room : Room) (code displayName : String) (isAdmin : Bool) (now : Nat)
    (hwf : RegistryWF s) :
    RegistryWF (joinRoomPhase s sockId d room code displayName isAdmin now).1 := by
  intro e he
  rw [joinRoomPhase_registry] at he
  rcases mem_setConns _ _ _ e he with h | rfl
  · exact hwf e h
  · exact addToSet_ne_nil _ _

/-- C10: after each join, leave, or disconnect handler, every room code in the
connection registry maps to a non-empty connection set; a join records the
joining connection under the room's (nonempty) entry, and a leave deletes the
entry exactly when it removes the last connection — the scheduler for the code
is stopped at that moment and only at that moment (otherwise the scheduler map
is untouched by leave). -/
theorem registry_nonempty_invariant (s : ServerState) (sockId : Nat)
    (d : SocketData) (roomCode displayName : String) (isAdmin : Bool) (now : Nat)
    (hwf : RegistryWF s) :
    RegistryWF (handleJoin s sockId d roomCode displayName isAdmin now).1 ∧
    RegistryWF (handleLeave s sockId d roomCode now).1 ∧
    (∀ r, findRoomByCode s.rooms (jsToUpper roomCode) = some r →
      ∃ l, lookupConns
          (handleJoin s sockId d roomCode displayName isAdmin now).1.roomConnections
          (jsToUpper roomCode) = some l ∧ sockId ∈ l ∧ l ≠ []) ∧
    (lookupConns s.roomConnections (jsToUpper roomCode) = none →
      (handleLeave s sockId d roomCode now).1.roomConnections = s.roomConnections ∧
      (handleLeave s sockId d roomCode now).1.activeSchedulers = s.activeSchedulers) ∧
    (∀ l, lookupConns s.roomConnections (jsToUpper roomCode) = some l →
      l.filter (fun x => x != sockId) = [] →
      lookupConns (handleLeave s sockId d roomCode now).1.roomConnections
          (jsToUpper roomCode) = none ∧
      (handleLeave s sockId d roomCode now).1.activeSchedulers =
        stopRoomScheduler s.activeSchedulers (jsToUpper roomCode)) ∧
    (∀ l, lookupConns s.roomConnections (jsToUpper roomCode) = some l →
      l.filter (fun x => x != sockId) ≠ [] →
      lookupConns (handleLeave s sockId d roomCode now).1.roomConnections
          (jsToUpper roomCode) = some (l.filter (fun x => x != sockId)) ∧
      (handleLeave s sockId d roomCode now).1.activeSchedulers =
        s.activeSchedulers) := by
  refine ⟨?_, ?_, ?_, ?_, ?_, ?_⟩
  · rcases hr : findRoomByCode s.rooms (jsToUpper roomCode) with _ | room
    · by_cases hA : isAdmin
      · simp only [handleJoin, hr, if_pos hA]
        exact joinRoomPhase_wf _ _ _ _ _ _ _ _ hwf
      · simp only [handleJoin, hr, if_neg hA]
        exact hwf
    · simp only [handleJoin, hr]
      exact joinRoomPhase_wf _ _ _ _ _ _ _ _ hwf
  · intro e he
    rcases hlook : lookupConns s.roomConnections (jsToUpper roomCode) with _ | l
    · simp only [handleLeave, hlook] at he
      exact hwf e he
    · by_cases hnil : l.filter (fun x => x != sockId) = []
      · simp only [handleLeave, hlook, if_pos hnil] at he
        exact hwf e ((List.mem_filter.mp he).1)
      · simp only [handleLeave, hlook, if_neg hnil] at he
        rcases mem_setConns _ _ _ e he with h | rfl
        · exact hwf e h
        · exact hnil
  · intro r hr
    refine ⟨addToSet ((lookupConns s.roomConnections (jsToUpper roomCode)).getD []) sockId,
      ?_, mem_addToSet_self _ _, addToSet_ne_nil _ _⟩
    simp only [handleJoin, hr, joinRoomPhase_registry]
    exact lookupConns_setConns_self _ _ _
  · intro hlook
    refine ⟨?_, ?_⟩ <;> simp [handleLeave, hlook]
  · intro l hlook hnil
    refine ⟨?_, ?_⟩
    · simp only [handleLeave, hlook, if_pos hnil]
      exact lookupConns_delConns_self _ _
    · simp only [handleLeave, hlook, if_pos hnil]
  · intro l hlook hnil
    refine ⟨?_, ?_⟩
    · simp only [handleLeave, hlook, if_neg hnil]
      exact lookupConns_setConns_self _ _ _
    · simp only [handleLeave, hlook, if_neg hnil]

theorem registry_nonempty_invariant_witness :
    RegistryWF (⟨[⟨0, "AB", none, true⟩], [], [], [], [("AB", [1, 2])], ["AB"], 2⟩ :
        ServerState) ∧
    RegistryWF (handleLeave
        ⟨[⟨0, "AB", none, true⟩], [], [], [], [("AB", [1, 2])], ["AB"], 2⟩
        2 ⟨some "AB", some 0, none, none, some false⟩ "AB" 9).1 :=
  ⟨by decide,
   (registry_nonempty_invariant
      ⟨[⟨0, "AB", none, true⟩], [], [], [], [("AB", [1, 2])], ["AB"], 2⟩
      2 ⟨some "AB", some 0, none, none, some false⟩ "AB" "x" false 9
      (by decide)).2.1⟩

/-! ### C3: what room closure means for the scheduler

`closeRoomAction` stops the room's scheduler, but it only deactivates the Room
row — the row keeps its code. A later `room:join` with the admin flag finds
that (inactive) room and calls `startRoomScheduler` again, after which ticks
fire and are even consumed (the consumption handler looks the room up by code
with no `isActive` check). Closure is therefore terminal only until the next
admin join under the same code. -/

lemma mem_startRoomScheduler (scheds : List String) (c c' : String)
    (h : c' ∈ startRoomScheduler scheds c) : c' ∈ scheds ∨ c' = c := by
  unfold startRoomScheduler at h
  split at h
  · exact Or.inl h
  · rcases List.mem_append.mp h with h1 | h1
    · exact Or.inl h1
    · exact Or.inr (List.mem_singleton.mp h1)

lemma mem_stopRoomScheduler (scheds : List String) (c c' : String)
    (h : c' ∈ stopRoomScheduler scheds c) : c' ∈ scheds :=
  (List.mem_filter.mp h).1

lemma not_mem_stopRoomScheduler_self (scheds : List String) (c : String) :
    c ∉ stopRoomScheduler scheds c := by
  intro h
  have := (List.mem_filter.mp h).2
  simp at this

lemma handleChatMessage_scheds (s : ServerState) (sockId : Nat) (d : SocketData)
    (content : String) :
    (handleChatMessage s sockId d content).1.activeSchedulers = s.activeSchedulers := by
  rcases hrid : d.roomId with _ | rid <;> rcases hrc : d.roomCode with _ | rc <;>
      simp only [handleChatMessage, hrid, hrc]
  split <;> rfl

lemma handleManualEvent_scheds (s : ServerState) (sockId : Nat) (d : SocketData)
    (title description severity : String) (now : Nat) :
    (handleManualEvent s sockId d title description severity now).1.activeSchedulers =
      s.activeSchedulers := by
  by_cases ha : d.isAdmin = some true
  · rcases hrid : d.roomId with _ | rid <;> rcases hrc : d.roomCode with _ | rc <;>
        simp only [handleManualEvent, if_pos ha, hrid, hrc]
    split <;> rfl
  · simp only [handleManualEvent, if_neg ha]

lemma consumeScheduledEvent_scheds (s : ServerState)
    (roomCode severity title description : String) (now : Nat) :
    (consumeScheduledEvent s roomCode severity title description now).1.activeSchedulers =
      s.activeSchedulers := by
  simp only [consumeScheduledEvent]
  split
  · rfl
  · split <;> rfl

lemma schedulerTick_scheds (s : ServerState) (roomCode : String) (r now : Nat) :
    (schedulerTick s roomCode r now).1.activeSchedulers = s.activeSchedulers := by
  simp only [schedulerTick]
  split
  · exact consumeScheduledEvent_scheds _ _ _ _ _ _
  · rfl

/-- No operation other than a join carrying the admin flag for code `c` can
make `c` (re)appear in the scheduler timer map. -/
lemma applyOp_scheds_preserved (s : ServerState) (op : Op) (c : String)
    (hc : c ∉ s.activeSchedulers) (hop : notAdminJoinFor c op) :
    c ∉ (applyOp s op).activeSchedulers := by
  cases op with
  | join sockId d rc dn a now =>
    intro hmem
    have hscheds : (handleJoin s sockId d rc dn a now).1.activeSchedulers =
        (if a then startRoomScheduler s.activeSchedulers (jsToUpper rc)
         else s.activeSchedulers) := by
      rcases hr : findRoomByCode s.rooms (jsToUpper rc) with _ | room
      · by_cases hA : a <;>
          simp only [handleJoin, hr, if_pos, if_neg, hA, ite_true, ite_false] <;> rfl
      · simp only [handleJoin, hr]
        rfl
    simp only [applyOp] at hmem
    rw [hscheds] at hmem
    by_cases hA : a
    · rw [if_pos hA] at hmem
      rcases mem_startRoomScheduler _ _ _ hmem with h1 | h1
      · exact hc h1
      · exact (hop hA) h1.symm
    · rw [if_neg hA] at hmem
      exact hc hmem
  | leave sockId d rc now =>
    intro hmem
    rcases hlook : lookupConns s.roomConnections (jsToUpper rc) with _ | l
    · simp only [applyOp, handleLeave, hlook] at hmem
      exact hc hmem
    · by_cases hnil : l.filter (fun x => x != sockId) = []
      · simp only [applyOp, handleLeave, hlook, if_pos hnil] at hmem
        exact hc (mem_stopRoomScheduler _ _ _ hmem)
      · simp only [applyOp, handleLeave, hlook, if_neg hnil] at hmem
        exact hc hmem
  | chat sockId d content =>
    intro hmem
    rw [applyOp, handleChatMessage_scheds] at hmem
    exact hc hmem
  | manualEvent sockId d t desc sev now =>
    intro hmem
    rw [applyOp, handleManualEvent_scheds] at hmem
    exact hc hmem
  | ack sockId d eid now => exact hc
  | tick rc r now =>
    intro hmem
    rw [applyOp, schedulerTick_scheds] at hmem
    exact hc hmem
  | close rid rc now =>
    intro hmem
    simp only [applyOp, closeRoomAction] at hmem
    split at hmem
    · exact hc hmem
    · split at hmem
      · exact hc hmem
      · exact hc (mem_stopRoomScheduler _ _ _ hmem)

lemma applyOps_scheds_preserved (c : String) (ops : List Op) :
    ∀ s : ServerState, c ∉ s.activeSchedulers →
      (∀ op ∈ ops, notAdminJoinFor c op) →
      c ∉ (applyOps s ops).activeSchedulers := by
  induction ops with
  | nil => intro s h _; exact h
  | cons op t ih =>
    intro s h hall
    exact ih (applyOp s op)
      (applyOp_scheds_preserved s op c h (hall op (List.mem_cons_self op t)))
      (fun o ho => hall o (List.mem_cons_of_mem op ho))

/-- C3 fails as stated: after closing room "AB", a second admin join under the
same code restarts the scheduler (the closed Room row still exists and is found
by the join), and a subsequent tick fires and persists a new CrisisEvent for
that code. -/
theorem closure_not_terminal_counterexample :
    "AB" ∈ (applyOps ⟨[], [], [], [], [], [], 0⟩
        [Op.join 1 ⟨none, none, none, none, none⟩ "ab" "Form" true 1,
         Op.close 0 "AB" 2,
         Op.join 2 ⟨none, none, none, none, none⟩ "ab" "Form" true 3]).activeSchedulers ∧
    (schedulerTick (applyOps ⟨[], [], [], [], [], [], 0⟩
        [Op.join 1 ⟨none, none, none, none, none⟩ "ab" "Form" true 1,
         Op.close 0 "AB" 2,
         Op.join 2 ⟨none, none, none, none, none⟩ "ab" "Form" true 3])
        "AB" 0 4).1.crisisEvents.length =
      (applyOps ⟨[], [], [], [], [], [], 0⟩
        [Op.join 1 ⟨none, none, none, none, none⟩ "ab" "Form" true 1,
         Op.close 0 "AB" 2,
         Op.join 2 ⟨none, none, none, none, none⟩ "ab" "Form" true 3]).crisisEvents.length
        + 1 := by
  decide

/-- C3 (amended): room closure stops the scheduler for that room code, and no
scheduler tick fires for that code across any later sequence of operations
that contains no admin-flagged join normalizing to that code — a tick for the
code is a strict no-op at every such point. Only a later admin join under the
same code (which finds the deactivated Room row and calls the idempotent
scheduler start again) can make ticks resume. -/
theorem closure_stops_scheduler_until_admin_rejoin (s : ServerState)
    (roomId : Nat) (roomCode : String) (now : Nat) (r : Room)
    (hcode : ¬roomCode = "")
    (hfound : findRoomById s.rooms roomId = some r)
    (ops : List Op)
    (hops : ∀ op ∈ ops, notAdminJoinFor (jsToUpper roomCode) op) :
    jsToUpper roomCode ∉
      (applyOps (closeRoomAction s roomId roomCode now).1 ops).activeSchedulers ∧
    (∀ rr nn, schedulerTick
        (applyOps (closeRoomAction s roomId roomCode now).1 ops)
        (jsToUpper roomCode) rr nn =
      (applyOps (closeRoomAction s roomId roomCode now).1 ops, [])) := by
  have hstopped : jsToUpper roomCode ∉
      (closeRoomAction s roomId roomCode now).1.activeSchedulers := by
    simp only [closeRoomAction, if_neg hcode, hfound]
    exact not_mem_stopRoomScheduler_self _ _
  have hnever := applyOps_scheds_preserved (jsToUpper roomCode) ops
    (closeRoomAction s roomId roomCode now).1 hstopped hops
  refine ⟨hnever, ?_⟩
  intro rr nn
  have hcontains : (applyOps (closeRoomAction s roomId roomCode now).1
      ops).activeSchedulers.contains (jsToUpper roomCode) = false := by
    rw [Bool.eq_false_iff]
    intro htrue
    exact hnever (List.mem_of_elem_eq_true htrue)
  simp only [schedulerTick, hcontains]
  simp

theorem closure_stops_scheduler_until_admin_rejoin_witness :
    (¬("AB" : String) = "" ∧
     findRoomById ((⟨[⟨0, "AB", none, true⟩], [], [], [], [("AB", [1])], ["AB"], 1⟩ :
         ServerState)).rooms 0 = some ⟨0, "AB", none, true⟩ ∧
     (∀ op ∈ ([Op.tick "AB" 0 5,
               Op.join 2 ⟨none, none, none, none, none⟩ "ab" "Paul" false 6] : List Op),
        notAdminJoinFor (jsToUpper "AB") op)) ∧
    jsToUpper "AB" ∉
      (applyOps (closeRoomAction
          ⟨[⟨0, "AB", none, true⟩], [], [], [], [("AB", [1])], ["AB"], 1⟩ 0 "AB" 4).1
        [Op.tick "AB" 0 5,
         Op.join 2 ⟨none, none, none, none, none⟩ "ab" "Paul" false 6]).activeSchedulers :=
  ⟨⟨by decide, by decide, by decide⟩,
   (closure_stops_scheduler_until_admin_rejoin
      ⟨[⟨0, "AB", none, true⟩], [], [], [], [("AB", [1])], ["AB"], 1⟩ 0 "AB" 4
      ⟨0, "AB", none, true⟩ (by decide) (by decide)
      [Op.tick "AB" 0 5,
       Op.join 2 ⟨none, none, none, none, none⟩ "ab" "Paul" false 6]
      (by decide)).1⟩

end ParagonCrisis
